/-
  Verification of the ClusterComm dispatcher (ClusterComm.cpp).

  Shallow embedding of the ACTIVE code paths of the source file
  src/unnamed/part_001 (ClusterComm.cpp).  The file contains a large
  commented-out legacy queue model (lines 411-525); only the live code is
  embedded here.  C++ std::string values are modelled as lists of
  characters, wall-clock durations (C++ double) as rationals, and the
  external collaborators (cluster topology service, server identity
  service, hybrid logical clock) as an explicit environment record.
-/
import Mathlib

/-- C++ std::string, modelled as a list of characters. -/
abbrev Str := List Char

/-- Coerce a Lean string literal to the std::string model. -/
def chars (s : String) : Str := s.toList

/-- The `ClusterCommOpStatus` enumeration (ClusterComm.h, used throughout
ClusterComm.cpp). -/
inductive ClusterCommOpStatus where
  | CL_COMM_SUBMITTED
  | CL_COMM_SENDING
  | CL_COMM_SENT
  | CL_COMM_TIMEOUT
  | CL_COMM_RECEIVED
  | CL_COMM_ERROR
  | CL_COMM_DROPPED
  | CL_COMM_BACKEND_UNAVAILABLE
deriving DecidableEq, Repr

open ClusterCommOpStatus

/-- The fields of `ClusterCommResult` that the embedded operations read or
write (ClusterComm.h / ClusterComm.cpp). -/
structure ClusterCommResult where
  clientTransactionID : Str
  coordTransactionID : Nat
  operationID : Nat
  shardID : Str
  serverID : Str
  endpoint : Str
  status : ClusterCommOpStatus
  errorMessage : Str
  single : Bool
  dropped : Bool
  sendWasComplete : Bool
deriving DecidableEq, Repr

/-- Modelled from the spec: the `ClusterCommResult` default constructor lives
in ClusterComm.h, which is not among the sources.  Per the spec's
RequestRecord, ids and the error message start empty and flags start false;
the C++ std::string members default-initialize to the empty string.  The
initial status is never observed by any theorem below (every code path that
is verified writes the status before it is read). -/
def initResult : ClusterCommResult :=
  { clientTransactionID := []
    coordTransactionID := 0
    operationID := 0
    shardID := []
    serverID := []
    endpoint := []
    status := CL_COMM_SUBMITTED
    errorMessage := []
    single := false
    dropped := false
    sendWasComplete := false }

/-- External collaborators of the dispatcher: the cluster topology service
(`ClusterInfo::getResponsibleServer`, `ClusterInfo::getServerEndpoint`), the
identity service (`ServerState::getAuthentication`), the hybrid logical
clock (already encoded to its header value), and the process-wide
`Transaction::_makeNolockHeaders` set (a null-able pointer, hence Option). -/
structure Env where
  responsibleServers : Str → List Str
  serverEndpoint : Str → Str
  authentication : Str
  hlcHeaderValue : Str
  makeNolockHeaders : Option (List Str)

/-- Shared tail of `ClusterCommResult::setDestination`
(src/unnamed/part_001:105-118): look up the endpoint of `serverID`; an empty
endpoint is a terminal backend-unavailable error.  The second component
collects the log lines the code emits. -/
def lookupEndpointEmbed (env : Env) (r : ClusterCommResult) (logs : List Str) :
    ClusterCommResult × List Str :=
  let ep := env.serverEndpoint r.serverID
  if ep = [] then
    ({ r with endpoint := ep, status := CL_COMM_BACKEND_UNAVAILABLE,
              errorMessage :=
                chars "did not find endpoint of server '" ++ r.serverID ++ chars "'" },
     logs ++ [chars "did not find endpoint of server '" ++ r.serverID ++ chars "'"])
  else
    ({ r with endpoint := ep }, logs)

/-- Embedding of `ClusterCommResult::setDestination`
(src/unnamed/part_001:54-119).  The second component collects the log lines
the code emits (at whatever level). -/
def setDestinationEmbed (env : Env) (dest : Str) (r : ClusterCommResult) :
    ClusterCommResult × List Str :=
  if dest.take 6 = chars "shard:" then
    match env.responsibleServers (dest.drop 6) with
    | [] =>
        ({ r with shardID := dest.drop 6, serverID := [],
                  status := CL_COMM_BACKEND_UNAVAILABLE },
         [chars "cannot find responsible server for shard '" ++ dest.drop 6 ++ chars "'"])
    | s :: _ =>
        lookupEndpointEmbed env { r with shardID := dest.drop 6, serverID := s }
          [chars "Responsible server: " ++ s]
  else if dest.take 7 = chars "server:" then
    lookupEndpointEmbed env { r with shardID := [], serverID := dest.drop 7 } []
  else if dest.take 6 = chars "tcp://" ∨ dest.take 6 = chars "ssl://" then
    ({ r with shardID := [], serverID := [], endpoint := dest }, [])
  else
    ({ r with shardID := [], serverID := [], endpoint := [],
              status := CL_COMM_BACKEND_UNAVAILABLE,
              errorMessage :=
                chars "did not understand destination'" ++ dest ++ chars "'" },
     [chars "did not understand destination '" ++ dest ++ chars "'"])

/-- Embedding of `ClusterComm::createCommunicatorDestination`
(src/unnamed/part_001:1330-1339): scheme translation for the HTTP engine.
`httpEndpoint` starts empty and is only assigned for the two known schemes;
the path is appended unconditionally. -/
def createCommunicatorDestination (endpoint path : Str) : Str :=
  let httpEndpoint : Str :=
    if endpoint.take 6 = chars "tcp://" then chars "http://" ++ endpoint.drop 6
    else if endpoint.take 6 = chars "ssl://" then chars "https://" ++ endpoint.drop 6
    else []
  httpEndpoint ++ path

/-- Header maps (std::unordered_map<std::string, std::string>). -/
def Headers := Str → Option Str

/-- The empty header map. -/
def emptyHeaders : Headers := fun _ => none

/-- `map[k] = v` on a header map. -/
def setH (h : Headers) (k v : Str) : Headers :=
  fun k' => if k' = k then some v else h k'

/-- Modelled from the spec: `StaticStrings::HLCHeader` is declared in a
header file whose definition is not among the sources; the spec (§6) names
the header `X-Arango-HLC`. -/
def HLCHeaderName : Str := chars "X-Arango-HLC"

/-- The parts of an outbound `HttpRequest` the dispatcher fills in. -/
structure HttpRequestEmbed where
  headers : Headers
  body : Str

/-- Embedding of `ClusterComm::prepareRequest`
(src/unnamed/part_001:1341-1389).  Returns the prepared record and the
request, or no request when resolution left the endpoint empty. -/
def prepareRequest (env : Env) (destination : Str) (body : Option Str)
    (headerFields : Headers) : ClusterCommResult × Option HttpRequestEmbed :=
  let r := (setDestinationEmbed env destination initResult).1
  if r.endpoint = [] then (r, none)
  else
    let r := { r with status := CL_COMM_SUBMITTED }
    let hc := headerFields
    let hc :=
      if destination.take 6 = chars "shard:" then
        match env.makeNolockHeaders with
        | some shards =>
            if r.shardID ∈ shards then setH hc (chars "X-Arango-Nolock") r.shardID
            else hc
        | none => hc
      else hc
    let hc := setH hc (chars "Authorization") env.authentication
    let hc := setH hc HLCHeaderName env.hlcHeaderValue
    (r, some { headers := hc, body := body.getD [] })

/-- The transport options the dispatcher fills in
(`communicator::Options`, src/lib/SimpleHttpClient). -/
structure CommunicatorOptions where
  connectionTimeout : ℚ
  requestTimeout : ℚ
deriving DecidableEq, Repr

/-- Everything observable about one call to `ClusterComm::asyncRequest`
(src/unnamed/part_001:322-410): the produced record, whether and where a
request was handed to the transport (`Communicator::addRequest`), the
headers of the submitted request, the transport options, the ticket, and
the updated `responses` table. -/
structure AsyncOutcome where
  result : ClusterCommResult
  submittedToTransport : Bool
  transportDestination : Str
  requestHeaders : Headers
  options : CommunicatorOptions
  ticket : Nat
  responses : List (Nat × ClusterCommResult)

/-- Embedding of the active body of `ClusterComm::asyncRequest`
(src/unnamed/part_001:322-410).  `nextTicket` stands for the ticket id the
transport allocates in `addRequest`; `responses` is the tracked-responses
table before the call.  Note the code builds a fake empty request when
preparation failed (line 337-339), always calls `addRequest` (line 400),
inserts into `responses` (line 406) and finally sets the status to
`CL_COMM_SUBMITTED` (line 408) on the same shared record. -/
def asyncRequestEmbed (env : Env) (clientTransactionID : Str)
    (coordTransactionID : Nat) (destination : Str) (path : Str)
    (body : Option Str) (headerFields : Headers) (timeout : ℚ)
    (singleRequest : Bool) (initTimeout : ℚ) (nextTicket : Nat)
    (responses : List (Nat × ClusterCommResult)) : AsyncOutcome :=
  let prepared := prepareRequest env destination body headerFields
  let r0 := { prepared.1 with
                clientTransactionID := clientTransactionID,
                coordTransactionID := coordTransactionID,
                single := singleRequest }
  let request : HttpRequestEmbed :=
    match prepared.2 with
    | none => { headers := emptyHeaders, body := [] }
    | some req => req
  let opt : CommunicatorOptions :=
    { connectionTimeout := initTimeout, requestTimeout := timeout }
  let ticketId := nextTicket
  let r1 := { r0 with operationID := ticketId, status := CL_COMM_SUBMITTED }
  { result := r1
    submittedToTransport := true
    transportDestination := createCommunicatorDestination r0.endpoint path
    requestHeaders := request.headers
    options := opt
    ticket := ticketId
    responses := (ticketId, r1) :: responses }

/-- Everything observable about one call to `ClusterComm::syncRequest`
(src/unnamed/part_001:548-608) up to the point where the transport takes
over: the returned record, whether `addRequest` was reached, and whether
the caller blocked on the function's private condition variable. -/
structure SyncOutcome where
  result : ClusterCommResult
  submittedToTransport : Bool
  blockedOnCV : Bool
deriving Repr

/-- Embedding of `ClusterComm::syncRequest` (src/unnamed/part_001:548-608).
When preparation produced no request the function returns at once (line
561-563); otherwise it submits the request, sets the status to
`CL_COMM_SENDING` and blocks on its private condition variable until a
transport callback signals it (the callback outcome itself is outside this
embedding). -/
def syncRequestEmbed (env : Env) (destination : Str) (body : Option Str)
    (headerFields : Headers) : SyncOutcome :=
  let prepared := prepareRequest env destination body headerFields
  let r := { prepared.1 with single := true }
  match prepared.2 with
  | none => { result := r, submittedToTransport := false, blockedOnCV := false }
  | some _ =>
      { result := { r with status := CL_COMM_SENDING }
        submittedToTransport := true
        blockedOnCV := true }

/-- Embedding of `ClusterComm::match` (src/unnamed/part_001:614-622): the
three wildcard filters, conjoined.  The ticket is not among them. -/
def matchEmbed (clientTransactionID : Str) (coordTransactionID : Nat)
    (shardID : Str) (res : ClusterCommResult) : Bool :=
  (clientTransactionID == [] ||
     clientTransactionID == res.clientTransactionID) &&
  (0 == coordTransactionID ||
     coordTransactionID == res.coordTransactionID) &&
  (shardID == [] || shardID == res.shardID)

/-- The record `enquire`/`wait` synthesise for an unknown ticket
(src/unnamed/part_001:652-655 and 699-707). -/
def droppedResult (ticketId : Nat) : ClusterCommResult :=
  { initResult with operationID := ticketId, status := CL_COMM_DROPPED }

/-- Embedding of `ClusterComm::enquire` (src/unnamed/part_001:638-656):
look the ticket up in the tracked-responses table, synthesising a Dropped
record when it is absent. -/
def enquireEmbed (ticketId : Nat)
    (responses : List (Nat × ClusterCommResult)) : ClusterCommResult :=
  match responses.find? (fun p => p.1 == ticketId) with
  | some p => p.2
  | none => droppedResult ticketId

/-- The lookup step of `ClusterComm::wait` (src/unnamed/part_001:687-709):
ticket 0 scans for the first record matching the three wildcard filters,
a nonzero ticket is looked up directly (the other filters are ignored). -/
def waitFind (clientTransactionID : Str) (coordTransactionID : Nat)
    (ticketId : Nat) (shardID : Str)
    (responses : List (Nat × ClusterCommResult)) :
    Option (Nat × ClusterCommResult) :=
  if ticketId = 0 then
    responses.find? (fun p => matchEmbed clientTransactionID coordTransactionID shardID p.2)
  else
    responses.find? (fun p => p.1 == ticketId)

/-- The blocking loop of `ClusterComm::wait` (src/unnamed/part_001:712-715):
while the record's status is `CL_COMM_SUBMITTED`, block on the
`somethingReceived` condition variable for one slice (at most 60 seconds).
`statusAt k` is the record's status as observed at the k-th check; the
result is the index of the check at which the loop exits, or `none` when
the status was still `CL_COMM_SUBMITTED` at every one of the given number
of checks (the real loop would still be blocked). -/
def waitLoop : Nat → (Nat → ClusterCommOpStatus) → Option Nat
  | 0, _ => none
  | n + 1, statusAt =>
      if statusAt 0 = CL_COMM_SUBMITTED then
        (waitLoop n (fun k => statusAt (k + 1))).map Nat.succ
      else some 0

/-- The wait slice passed to `somethingReceived.wait` in microseconds
(src/unnamed/part_001:714). -/
def waitSliceMicros : ℚ := 60000000

/-- Embedding of `ClusterComm::wait` (src/unnamed/part_001:672-725).
`none` means the call has not returned after the given number of loop
checks (it is still blocked).  The `timeout` argument is taken (as in the
source) but plays no role in the body. -/
def waitEmbed (clientTransactionID : Str) (coordTransactionID : Nat)
    (ticketId : Nat) (shardID : Str) (timeout : ℚ)
    (responses : List (Nat × ClusterCommResult))
    (statusAt : Nat → ClusterCommOpStatus) (checks : Nat) :
    Option ClusterCommResult :=
  match waitFind clientTransactionID coordTransactionID ticketId shardID responses with
  | none => some (droppedResult ticketId)
  | some p =>
      match waitLoop checks statusAt with
      | none => none
      | some k => some { p.2 with status := statusAt k }

/-- The part of a `ClusterCommOperation` the `drop` code inspects
(ClusterComm.h; `drop` only reads and writes `op->result`). -/
structure ClusterCommOperation where
  result : ClusterCommResult
deriving DecidableEq, Repr

/-- The dispatcher state `drop` and `enquire` see: the legacy `toSend` and
`received` queues and the active tracked-responses table `responses`. -/
structure DispatcherState where
  toSend : List ClusterCommOperation
  received : List ClusterCommOperation
  responses : List (Nat × ClusterCommResult)
deriving DecidableEq, Repr

/-- The selection condition of `ClusterComm::drop`
(src/unnamed/part_001:754-755 and 780-781): a nonzero operation id that
equals the record's, OR the three wildcard filters of `match`. -/
def dropMatches (clientTransactionID : Str) (coordTransactionID : Nat)
    (operationID : Nat) (shardID : Str) (r : ClusterCommResult) : Bool :=
  ((0 != operationID) && (operationID == r.operationID)) ||
    matchEmbed clientTransactionID coordTransactionID shardID r

/-- The per-element action of the `toSend` pass of `ClusterComm::drop`
(src/unnamed/part_001:752-772): a matching operation in status
`CL_COMM_SENDING` gets its `dropped` flag set, any other matching operation
is removed, non-matching operations are kept. -/
def dropSendAction (clientTransactionID : Str) (coordTransactionID : Nat)
    (operationID : Nat) (shardID : Str) (op : ClusterCommOperation) :
    Option ClusterCommOperation :=
  if dropMatches clientTransactionID coordTransactionID operationID shardID op.result then
    if op.result.status = CL_COMM_SENDING then
      some { op with result := { op.result with dropped := true } }
    else none
  else some op

/-- Embedding of `ClusterComm::drop` (src/unnamed/part_001:741-796): one
pass over `toSend` (with the Sending special case) and one pass over
`received` (plain removal).  The `responses` table is not touched by the
function. -/
def dropEmbed (clientTransactionID : Str) (coordTransactionID : Nat)
    (operationID : Nat) (shardID : Str) (st : DispatcherState) :
    DispatcherState :=
  { toSend := st.toSend.filterMap
      (dropSendAction clientTransactionID coordTransactionID operationID shardID)
    received := st.received.filter
      (fun op => !dropMatches clientTransactionID coordTransactionID operationID shardID op.result)
    responses := st.responses }

/-- The per-request bookkeeping of `ClusterComm::performRequests`
(src/unnamed/part_001:1107-1110 and 1192-1230). -/
structure RequestSlot where
  dueTime : ℚ
  done : Bool
deriving DecidableEq, Repr

/-- Embedding of the result dispatch in the inner loop of
`ClusterComm::performRequests` (src/unnamed/part_001:1192-1230), for a
result that was matched to the request slot: Received marks the request
done (and good when the answer code was 200/201/202); BackendUnavailable,
or Timeout with an incomplete send, computes the retry due time
`min(10, max(0.2, 2*(now - startTime))) + now` and gives up (marks done)
when that is at or beyond `endTime`; every other status marks the request
done with no retry. -/
def handleResult (status : ClusterCommOpStatus) (sendWasComplete : Bool)
    (answerGood : Bool) (now startTime endTime : ℚ)
    (slot : RequestSlot) (nrDone nrGood : Nat) : RequestSlot × Nat × Nat :=
  if status = CL_COMM_RECEIVED then
    ({ slot with done := true }, nrDone + 1, if answerGood then nrGood + 1 else nrGood)
  else if status = CL_COMM_BACKEND_UNAVAILABLE ∨
          (status = CL_COMM_TIMEOUT ∧ sendWasComplete = false) then
    let due := min 10 (max (2/10) (2 * (now - startTime))) + now
    if endTime ≤ due then
      ({ dueTime := due, done := true }, nrDone + 1, nrGood)
    else
      ({ slot with dueTime := due }, nrDone, nrGood)
  else
    ({ slot with done := true }, nrDone + 1, nrGood)

/-- Definition following the spec's words (claim C8): a record matches a
filter tuple iff each supplied filter (empty/zero acting as wildcard)
equals the corresponding record field, the ticket included, all
conjointly. -/
def matchSpecRule (clientTransactionID : Str) (coordTransactionID : Nat)
    (ticketId : Nat) (shardID : Str) (r : ClusterCommResult) : Bool :=
  (clientTransactionID == [] ||
     clientTransactionID == r.clientTransactionID) &&
  (coordTransactionID == 0 ||
     coordTransactionID == r.coordTransactionID) &&
  (shardID == [] || shardID == r.shardID) &&
  (ticketId == 0 || ticketId == r.operationID)

/-- A topology environment in which nothing resolves: no shard has a
responsible server and no server has a known endpoint. -/
def env0 : Env :=
  { responsibleServers := fun _ => []
    serverEndpoint := fun _ => []
    authentication := chars "basic auth-token"
    hlcHeaderValue := chars "hlc-timestamp"
    makeNolockHeaders := none }

/-- The concrete request `prepareRequest` builds for a plain `tcp://`
destination with no caller headers in the environment `env0` (used as a
witness input below). -/
def witnessRequest : HttpRequestEmbed :=
  { headers := setH (setH emptyHeaders (chars "Authorization") env0.authentication)
      HLCHeaderName env0.hlcHeaderValue
    body := [] }

theorem setH_same (h : Headers) (k v : Str) : setH h k v k = some v := by
  simp [setH]

theorem setH_other (h : Headers) (k v k' : Str) (hne : k' ≠ k) :
    setH h k v k' = h k' := by
  simp [setH, hne]

theorem setDestinationEmbed_empty_endpoint_bu (env : Env) (dest : Str)
    (h : (setDestinationEmbed env dest initResult).1.endpoint = []) :
    (setDestinationEmbed env dest initResult).1.status = CL_COMM_BACKEND_UNAVAILABLE := by
  by_cases h1 : dest.take 6 = chars "shard:"
  · cases hR : env.responsibleServers (dest.drop 6) with
    | nil => simp [setDestinationEmbed, h1, hR]
    | cons s rest =>
        by_cases h2 : env.serverEndpoint s = []
        · simp [setDestinationEmbed, lookupEndpointEmbed, h1, hR, h2]
        · simp [setDestinationEmbed, lookupEndpointEmbed, h1, hR, h2] at h
  · by_cases h2 : dest.take 7 = chars "server:"
    · by_cases h3 : env.serverEndpoint (dest.drop 7) = []
      · simp [setDestinationEmbed, lookupEndpointEmbed, h1, h2, h3]
      · simp [setDestinationEmbed, lookupEndpointEmbed, h1, h2, h3] at h
    · by_cases h3 : dest.take 6 = chars "tcp://" ∨ dest.take 6 = chars "ssl://"
      · simp [setDestinationEmbed, h1, h2, h3] at h
        subst h
        rcases h3 with h3 | h3 <;> exact absurd h3 (by decide)
      · simp [setDestinationEmbed, h1, h2, h3]

theorem prepareRequest_none_elim (env : Env) (dest : Str) (body : Option Str)
    (hdrs : Headers) (h : (prepareRequest env dest body hdrs).2 = none) :
    (prepareRequest env dest body hdrs).1 = (setDestinationEmbed env dest initResult).1 ∧
    (prepareRequest env dest body hdrs).1.endpoint = [] ∧
    (prepareRequest env dest body hdrs).1.status = CL_COMM_BACKEND_UNAVAILABLE := by
  by_cases he : (setDestinationEmbed env dest initResult).1.endpoint = []
  · refine ⟨?_, ?_, ?_⟩ <;>
      simp [prepareRequest, he, setDestinationEmbed_empty_endpoint_bu env dest he]
  · simp [prepareRequest, he] at h

theorem waitLoop_const_submitted (n : Nat) :
    waitLoop n (fun _ => CL_COMM_SUBMITTED) = none := by
  induction n with
  | zero => rfl
  | succ n ih => simp [waitLoop, ih]

theorem waitLoop_spec (n : Nat) (statusAt : Nat → ClusterCommOpStatus) (k : Nat)
    (h : waitLoop n statusAt = some k) :
    statusAt k ≠ CL_COMM_SUBMITTED ∧ ∀ j, j < k → statusAt j = CL_COMM_SUBMITTED := by
  induction n generalizing statusAt k with
  | zero => simp [waitLoop] at h
  | succ n ih =>
      unfold waitLoop at h
      by_cases h0 : statusAt 0 = CL_COMM_SUBMITTED
      · rw [if_pos h0] at h
        cases hw : waitLoop n (fun j => statusAt (j + 1)) with
        | none => rw [hw] at h; simp at h
        | some k' =>
            rw [hw] at h
            obtain ⟨h1, h2⟩ := ih (fun j => statusAt (j + 1)) k' hw
            simp at h
            subst h
            refine ⟨h1, ?_⟩
            intro j hj
            cases j with
            | zero => exact h0
            | succ j' => exact h2 j' (Nat.lt_of_succ_lt_succ hj)
      · rw [if_neg h0] at h
        injection h with h
        subst h
        exact ⟨h0, fun j hj => absurd hj (Nat.not_lt_zero j)⟩

theorem dropMatches_dropped_irrelevant (c : Str) (co : Nat) (opID : Nat)
    (sh : Str) (r : ClusterCommResult) :
    dropMatches c co opID sh { r with dropped := true } = dropMatches c co opID sh r := by
  simp [dropMatches, matchEmbed]

theorem dropSendAction_fix (c : Str) (co : Nat) (opID : Nat) (sh : Str)
    (op op' : ClusterCommOperation)
    (h : dropSendAction c co opID sh op = some op') :
    dropSendAction c co opID sh op' = some op' := by
  unfold dropSendAction at h ⊢
  by_cases hm : dropMatches c co opID sh op.result
  · rw [if_pos hm] at h
    by_cases hs : op.result.status = CL_COMM_SENDING
    · rw [if_pos hs] at h
      injection h with h
      subst h
      rw [if_pos (by simp [dropMatches_dropped_irrelevant, hm]),
          if_pos (by simpa using hs)]
    · rw [if_neg hs] at h
      exact absurd h (by simp)
  · rw [if_neg hm] at h
    injection h with h
    subst h
    rw [if_neg (by simpa using hm)]

theorem filterMap_dropSendAction_idem (c : Str) (co : Nat) (opID : Nat)
    (sh : Str) (l : List ClusterCommOperation) :
    (l.filterMap (dropSendAction c co opID sh)).filterMap (dropSendAction c co opID sh) =
      l.filterMap (dropSendAction c co opID sh) := by
  induction l with
  | nil => rfl
  | cons x xs ih =>
      cases hx : dropSendAction c co opID sh x with
      | none => simp [List.filterMap_cons, hx, ih]
      | some y =>
          simp [List.filterMap_cons, hx, dropSendAction_fix c co opID sh x y hx, ih]

theorem take_chars_append (s : String) (rest : Str) :
    (chars s ++ rest).take (chars s).length = chars s :=
  List.take_left (chars s) rest

theorem drop_chars_append (s : String) (rest : Str) :
    (chars s ++ rest).drop (chars s).length = rest :=
  List.drop_left (chars s) rest

/-- Claim C10: `createCommunicatorDestination` maps a `tcp://rest` endpoint to
`http://rest ++ path` and an `ssl://rest` endpoint to `https://rest ++ path`;
for an endpoint with any other prefix (the empty endpoint of a failed
resolution included) the endpoint is discarded and the destination URL is
exactly the path. -/
theorem createCommunicatorDestination_scheme_mapping (rest path ep : Str) :
    createCommunicatorDestination (chars "tcp://" ++ rest) path =
      chars "http://" ++ rest ++ path ∧
    createCommunicatorDestination (chars "ssl://" ++ rest) path =
      chars "https://" ++ rest ++ path ∧
    (ep.take 6 ≠ chars "tcp://" → ep.take 6 ≠ chars "ssl://" →
      createCommunicatorDestination ep path = path) := by
  have htcp : (chars "tcp://" ++ rest).take 6 = chars "tcp://" := by
    have h6 : (6 : Nat) = (chars "tcp://").length := rfl
    rw [h6, List.take_left]
  have hssl : (chars "ssl://" ++ rest).take 6 = chars "ssl://" := by
    have h6 : (6 : Nat) = (chars "ssl://").length := rfl
    rw [h6, List.take_left]
  have dtcp : (chars "tcp://" ++ rest).drop 6 = rest := by
    have h6 : (6 : Nat) = (chars "tcp://").length := rfl
    rw [h6, List.drop_left]
  have dssl : (chars "ssl://" ++ rest).drop 6 = rest := by
    have h6 : (6 : Nat) = (chars "ssl://").length := rfl
    rw [h6, List.drop_left]
  refine ⟨?_, ?_, ?_⟩
  · simp [createCommunicatorDestination, htcp, dtcp, List.append_assoc]
  · simp [createCommunicatorDestination, hssl, dssl, List.append_assoc,
      show chars "ssl://" ≠ chars "tcp://" from by decide]
  · intro h1 h2
    simp [createCommunicatorDestination, h1, h2]

/-- Witness for C10 at concrete inputs: `h:8529` has neither scheme prefix,
so the destination URL is the bare path. -/
theorem createCommunicatorDestination_scheme_mapping_witness :
    ((chars "h:8529").take 6 ≠ chars "tcp://" ∧
     (chars "h:8529").take 6 ≠ chars "ssl://") ∧
    createCommunicatorDestination (chars "h:8529") (chars "/x") = chars "/x" :=
  ⟨⟨by decide, by decide⟩,
   (createCommunicatorDestination_scheme_mapping [] (chars "/x")
      (chars "h:8529")).2.2 (by decide) (by decide)⟩

/-- Claim C5 counterexample: with a topology that knows no responsible server for
shard S2, resolving destination `shard:S2` does set the terminal
BackendUnavailable status, but the record's `errorMessage` field stays
empty — the text `cannot find responsible server for shard 'S2'` is only
emitted on the log channel, so the claim that the errorMessage contains it
fails. -/
theorem shard_unknown_errorMessage_empty_cex :
    (setDestinationEmbed env0 (chars "shard:S2") initResult).1.status =
      CL_COMM_BACKEND_UNAVAILABLE ∧
    (setDestinationEmbed env0 (chars "shard:S2") initResult).1.errorMessage = [] ∧
    ¬ (chars "cannot find responsible server for shard 'S2'" <:+:
      (setDestinationEmbed env0 (chars "shard:S2") initResult).1.errorMessage) ∧
    (setDestinationEmbed env0 (chars "shard:S2") initResult).2 =
      [chars "cannot find responsible server for shard 'S2'"] := by
  refine ⟨rfl, rfl, ?_, rfl⟩
  decide

/-- Claim C5 amended: for destination `shard:X` with an empty responsible-server
list, the record becomes terminal BackendUnavailable with `shardID = X`,
the message `cannot find responsible server for shard 'X'` is emitted on
the log channel, and the record's `errorMessage` field is left empty. -/
theorem shard_unknown_logged_not_recorded (env : Env) (X : Str)
    (h : env.responsibleServers X = []) :
    (setDestinationEmbed env (chars "shard:" ++ X) initResult).1.status =
      CL_COMM_BACKEND_UNAVAILABLE ∧
    (setDestinationEmbed env (chars "shard:" ++ X) initResult).1.shardID = X ∧
    (setDestinationEmbed env (chars "shard:" ++ X) initResult).1.errorMessage = [] ∧
    (setDestinationEmbed env (chars "shard:" ++ X) initResult).2 =
      [chars "cannot find responsible server for shard '" ++ X ++ chars "'"] := by
  have htake : (chars "shard:" ++ X).take 6 = chars "shard:" := by
    have h6 : (6 : Nat) = (chars "shard:").length := rfl
    rw [h6, List.take_left]
  have hdrop : (chars "shard:" ++ X).drop 6 = X := by
    have h6 : (6 : Nat) = (chars "shard:").length := rfl
    rw [h6, List.drop_left]
  simp [setDestinationEmbed, htake, hdrop, h, initResult]

/-- Witness for C5 amended at the spec's own scenario (shard S2 unknown). -/
theorem shard_unknown_logged_not_recorded_witness :
    env0.responsibleServers (chars "S2") = [] ∧
    (setDestinationEmbed env0 (chars "shard:" ++ chars "S2") initResult).1.errorMessage = [] :=
  ⟨rfl, (shard_unknown_logged_not_recorded env0 (chars "S2") rfl).2.2.1⟩

/-- Claim C9: when destination resolution fails (the prepared record has an empty
endpoint, so `prepareRequest` produced no request), `syncRequest` returns
at once: nothing is handed to the transport, the private condition variable
is never waited on, and the returned record is the prepared record with
`single = true` and the terminal BackendUnavailable status from
resolution. -/
theorem syncRequest_failedResolution_returns_immediately (env : Env)
    (dest : Str) (body : Option Str) (hdrs : Headers)
    (h : (prepareRequest env dest body hdrs).2 = none) :
    (syncRequestEmbed env dest body hdrs).submittedToTransport = false ∧
    (syncRequestEmbed env dest body hdrs).blockedOnCV = false ∧
    (syncRequestEmbed env dest body hdrs).result.single = true ∧
    (syncRequestEmbed env dest body hdrs).result.status =
      CL_COMM_BACKEND_UNAVAILABLE ∧
    (syncRequestEmbed env dest body hdrs).result =
      { (prepareRequest env dest body hdrs).1 with single := true } := by
  obtain ⟨-, -, hbu⟩ := prepareRequest_none_elim env dest body hdrs h
  simp only [syncRequestEmbed, h]
  exact ⟨trivial, trivial, trivial, by simpa using hbu, trivial⟩

/-- Witness for C9: with an empty topology, destination `shard:S2` fails to
resolve and `syncRequest` neither submits nor blocks. -/
theorem syncRequest_failedResolution_returns_immediately_witness :
    (prepareRequest env0 (chars "shard:S2") none emptyHeaders).2 = none ∧
    (syncRequestEmbed env0 (chars "shard:S2") none emptyHeaders).submittedToTransport = false ∧
    (syncRequestEmbed env0 (chars "shard:S2") none emptyHeaders).blockedOnCV = false :=
  ⟨rfl,
   (syncRequest_failedResolution_returns_immediately env0 (chars "shard:S2")
      none emptyHeaders rfl).1,
   (syncRequest_failedResolution_returns_immediately env0 (chars "shard:S2")
      none emptyHeaders rfl).2.1⟩

/-- Claim C1 counterexample: for the unresolvable destination `bogus`, preparation
does mark the record BackendUnavailable, but `asyncRequest` nevertheless
hands a (fake) request to the transport, and the record it tracks and
returns ends in status Submitted, not in the terminal BackendUnavailable
the claim requires, so the claim fails. -/
theorem asyncRequest_failedResolution_still_submits_cex :
    (prepareRequest env0 (chars "bogus") none emptyHeaders).1.status =
      CL_COMM_BACKEND_UNAVAILABLE ∧
    (asyncRequestEmbed env0 (chars "ctx") 42 (chars "bogus") (chars "/x")
        none emptyHeaders 5 false (-1) 17 []).submittedToTransport = true ∧
    (asyncRequestEmbed env0 (chars "ctx") 42 (chars "bogus") (chars "/x")
        none emptyHeaders 5 false (-1) 17 []).result.status = CL_COMM_SUBMITTED ∧
    (asyncRequestEmbed env0 (chars "ctx") 42 (chars "bogus") (chars "/x")
        none emptyHeaders 5 false (-1) 17 []).result.status ≠
      CL_COMM_BACKEND_UNAVAILABLE := by
  exact ⟨rfl, rfl, rfl, by decide⟩

/-- Claim C1 amended: when resolution fails, the record produced by
`prepareRequest` is BackendUnavailable with an empty endpoint, and
`asyncRequest` still assigns a ticket and inserts the record in
TrackedResponses — but it also submits a fake request to the transport
(whose destination URL degenerates to the bare path) and overwrites the
record's status with Submitted, so the tracked record is not terminal. -/
theorem asyncRequest_failedResolution_behavior (env : Env)
    (cln : Str) (co : Nat) (dest path : Str) (body : Option Str)
    (hdrs : Headers) (timeout : ℚ) (single : Bool) (initTimeout : ℚ)
    (ticket : Nat) (responses : List (Nat × ClusterCommResult))
    (h : (prepareRequest env dest body hdrs).2 = none) :
    (prepareRequest env dest body hdrs).1.status = CL_COMM_BACKEND_UNAVAILABLE ∧
    (prepareRequest env dest body hdrs).1.endpoint = [] ∧
    (asyncRequestEmbed env cln co dest path body hdrs timeout single
        initTimeout ticket responses).submittedToTransport = true ∧
    (asyncRequestEmbed env cln co dest path body hdrs timeout single
        initTimeout ticket responses).transportDestination = path ∧
    (asyncRequestEmbed env cln co dest path body hdrs timeout single
        initTimeout ticket responses).result.status = CL_COMM_SUBMITTED ∧
    (asyncRequestEmbed env cln co dest path body hdrs timeout single
        initTimeout ticket responses).result.operationID = ticket ∧
    (asyncRequestEmbed env cln co dest path body hdrs timeout single
        initTimeout ticket responses).responses =
      (ticket, (asyncRequestEmbed env cln co dest path body hdrs timeout single
        initTimeout ticket responses).result) :: responses := by
  obtain ⟨-, hep, hbu⟩ := prepareRequest_none_elim env dest body hdrs h
  refine ⟨hbu, hep, rfl, ?_, rfl, rfl, rfl⟩
  simp only [asyncRequestEmbed]
  have : ({ (prepareRequest env dest body hdrs).1 with
      clientTransactionID := cln, coordTransactionID := co,
      single := single } : ClusterCommResult).endpoint = [] := by simpa using hep
  rw [this]
  simp [createCommunicatorDestination]
  decide

/-- Witness for C1 amended at the concrete unresolvable destination
`bogus`. -/
theorem asyncRequest_failedResolution_behavior_witness :
    (prepareRequest env0 (chars "bogus") none emptyHeaders).2 = none ∧
    (asyncRequestEmbed env0 (chars "ctx") 42 (chars "bogus") (chars "/x")
        none emptyHeaders 5 false (-1) 17 []).transportDestination = chars "/x" :=
  ⟨rfl,
   (asyncRequest_failedResolution_behavior env0 (chars "ctx") 42
      (chars "bogus") (chars "/x") none emptyHeaders 5 false (-1) 17 []
      rfl).2.2.2.1⟩

/-- Claim C2 counterexample: for a successfully resolved destination and
`singleRequest = false`, the prepared outbound request exists but carries
neither `X-Arango-Async` nor `X-Arango-Coordinator`, so the claim that
those headers are present (and round-trip the coordinator tuple) fails. -/
theorem prepareRequest_no_async_headers_cex :
    (prepareRequest env0 (chars "tcp://h:8529") none emptyHeaders).2.map
      (fun r => r.headers (chars "X-Arango-Async")) = some none ∧
    (prepareRequest env0 (chars "tcp://h:8529") none emptyHeaders).2.map
      (fun r => r.headers (chars "X-Arango-Coordinator")) = some none ∧
    (asyncRequestEmbed env0 (chars "ctx") 42 (chars "tcp://h:8529")
        (chars "/x") none emptyHeaders 5 false (-1) 17 []).requestHeaders
      (chars "X-Arango-Async") = none ∧
    (asyncRequestEmbed env0 (chars "ctx") 42 (chars "tcp://h:8529")
        (chars "/x") none emptyHeaders 5 false (-1) 17 []).requestHeaders
      (chars "X-Arango-Coordinator") = none :=
  ⟨rfl, rfl, rfl, rfl⟩

/-- Claim C2 amended: the active `prepareRequest` injects only `Authorization`,
the HLC header and (for `shard:` destinations in the nolock set)
`X-Arango-Nolock`; every other header — `X-Arango-Async` and
`X-Arango-Coordinator` included — is exactly what the caller supplied,
regardless of `singleRequest`. -/
theorem prepareRequest_injected_headers (env : Env) (dest : Str)
    (body : Option Str) (hdrs : Headers) (hr : HttpRequestEmbed)
    (h : (prepareRequest env dest body hdrs).2 = some hr) :
    hr.headers (chars "Authorization") = some env.authentication ∧
    hr.headers HLCHeaderName = some env.hlcHeaderValue ∧
    ∀ k, k ≠ chars "Authorization" → k ≠ HLCHeaderName →
      k ≠ chars "X-Arango-Nolock" → hr.headers k = hdrs k := by
  by_cases he : (setDestinationEmbed env dest initResult).1.endpoint = []
  · simp [prepareRequest, he] at h
  · simp only [prepareRequest] at h
    rw [if_neg he] at h
    simp only [Option.some.injEq] at h
    subst h
    refine ⟨?_, ?_, ?_⟩
    · simp only [setH]
      rw [if_neg (show ¬(chars "Authorization" = HLCHeaderName) by decide)]
      simp
    · simp [setH]
    · intro k h1 h2 h3
      simp only [setH]
      rw [if_neg h2, if_neg h1]
      split
      · cases env.makeNolockHeaders with
        | none => rfl
        | some shards =>
            simp only []
            split
            · exact if_neg h3
            · rfl
      · rfl

/-- Witness for C2 amended at a concrete resolved destination. -/
theorem prepareRequest_injected_headers_witness :
    (prepareRequest env0 (chars "tcp://h:8529") none emptyHeaders).2 =
      some witnessRequest ∧
    witnessRequest.headers (chars "Authorization") = some env0.authentication :=
  ⟨rfl,
   (prepareRequest_injected_headers env0 (chars "tcp://h:8529") none
      emptyHeaders witnessRequest rfl).1⟩

/-- Claim C3 counterexample: a tracked record whose status stays Submitted keeps
`wait` blocked through ten full 60-second slices — far beyond the
caller-supplied timeout of 1 second — without returning any record, let
alone one with status Timeout, so the claim that the total blocking time is
bounded by the timeout fails. -/
theorem wait_ignores_timeout_cex :
    waitEmbed [] 0 1 [] 1 [(1, { initResult with operationID := 1 })]
      (fun _ => CL_COMM_SUBMITTED) 10 = none ∧
    10 * waitSliceMicros > 1 * 1000000 := by
  exact ⟨by decide, by norm_num [waitSliceMicros]⟩

/-- Claim C3 amended: `wait` blocks in slices (each a `somethingReceived.wait` of
at most 60 seconds) for as long as the matched record's status is
Submitted, entirely ignoring the caller-supplied timeout: the returned
value does not depend on it, a record is only returned once its own status
leaves Submitted (never a synthesised Timeout), a missing match returns a
synthesised Dropped record, and a status that stays Submitted keeps the
call blocked for any number of slices. -/
theorem wait_loop_behavior (c : Str) (co : Nat) (t : Nat) (sh : Str)
    (timeout : ℚ) (responses : List (Nat × ClusterCommResult))
    (statusAt : Nat → ClusterCommOpStatus) (checks : Nat)
    (r : ClusterCommResult)
    (h : waitEmbed c co t sh timeout responses statusAt checks = some r) :
    (∀ timeout2 : ℚ,
        waitEmbed c co t sh timeout2 responses statusAt checks = some r) ∧
    r.status ≠ CL_COMM_SUBMITTED ∧
    (waitFind c co t sh responses = none → r = droppedResult t) ∧
    (∀ p, waitFind c co t sh responses = some p →
        ∃ k, waitLoop checks statusAt = some k ∧
          r = { p.2 with status := statusAt k } ∧
          statusAt k ≠ CL_COMM_SUBMITTED ∧
          ∀ j, j < k → statusAt j = CL_COMM_SUBMITTED) ∧
    (∀ n, waitLoop n (fun _ => CL_COMM_SUBMITTED) = none) := by
  refine ⟨fun timeout2 => h, ?_, ?_, ?_, waitLoop_const_submitted⟩
  · unfold waitEmbed at h
    cases hf : waitFind c co t sh responses with
    | none =>
        rw [hf] at h
        injection h with h
        subst h
        simp [droppedResult]
    | some p =>
        rw [hf] at h
        cases hw : waitLoop checks statusAt with
        | none => rw [hw] at h; exact absurd h (by simp)
        | some k =>
            rw [hw] at h
            injection h with h
            subst h
            simpa using (waitLoop_spec checks statusAt k hw).1
  · intro hf
    unfold waitEmbed at h
    rw [hf] at h
    injection h with h
    exact h.symm
  · intro p hf
    unfold waitEmbed at h
    rw [hf] at h
    cases hw : waitLoop checks statusAt with
    | none => rw [hw] at h; exact absurd h (by simp)
    | some k =>
        rw [hw] at h
        injection h with h
        obtain ⟨h1, h2⟩ := waitLoop_spec checks statusAt k hw
        exact ⟨k, rfl, h.symm, h1, h2⟩

/-- Witness for C3 amended: a record whose status flips to Received at the
first check is returned with that status, independently of the timeout. -/
theorem wait_loop_behavior_witness :
    waitEmbed [] 0 1 [] 5 [(1, { initResult with operationID := 1 })]
      (fun _ => CL_COMM_RECEIVED) 1 =
      some { initResult with operationID := 1, status := CL_COMM_RECEIVED } ∧
    ({ initResult with operationID := 1, status := CL_COMM_RECEIVED } :
      ClusterCommResult).status ≠ CL_COMM_SUBMITTED :=
  ⟨by decide,
   (wait_loop_behavior [] 0 1 [] 5 [(1, { initResult with operationID := 1 })]
      (fun _ => CL_COMM_RECEIVED) 1
      { initResult with operationID := 1, status := CL_COMM_RECEIVED }
      (by decide)).2.1⟩

/-- Claim C4 counterexample: ticket 7 is tracked in the `responses` table with a
status other than Sending, yet `drop` (which only walks the legacy
`toSend`/`received` queues) leaves the state unchanged, and a subsequent
`enquire(7)` still returns the tracked Submitted record instead of a
synthesised Dropped one, so the claim fails. -/
theorem drop_leaves_responses_cex :
    dropEmbed [] 0 7 []
      { toSend := [], received := [],
        responses := [(7, { initResult with operationID := 7 })] } =
      { toSend := [], received := [],
        responses := [(7, { initResult with operationID := 7 })] } ∧
    (enquireEmbed 7
      (dropEmbed [] 0 7 []
        { toSend := [], received := [],
          responses := [(7, { initResult with operationID := 7 })] }).responses).status =
      CL_COMM_SUBMITTED ∧
    (enquireEmbed 7
      (dropEmbed [] 0 7 []
        { toSend := [], received := [],
          responses := [(7, { initResult with operationID := 7 })] }).responses).status ≠
      CL_COMM_DROPPED := by
  exact ⟨by decide, by decide, by decide⟩

/-- Claim C4 amended: `drop` removes matching non-Sending operations from the
legacy `toSend`/`received` queues (marking matching Sending operations
`dropped` instead), it is idempotent, and it never touches the
tracked-responses table, so `enquire` answers exactly as before the
drop. -/
theorem drop_idempotent_responses_untouched (c : Str) (co : Nat)
    (opID : Nat) (sh : Str) (st : DispatcherState) :
    dropEmbed c co opID sh (dropEmbed c co opID sh st) =
      dropEmbed c co opID sh st ∧
    (dropEmbed c co opID sh st).responses = st.responses ∧
    ∀ t, enquireEmbed t (dropEmbed c co opID sh st).responses =
      enquireEmbed t st.responses := by
  refine ⟨?_, rfl, fun t => rfl⟩
  unfold dropEmbed
  simp only [DispatcherState.mk.injEq]
  refine ⟨filterMap_dropSendAction_idem c co opID sh st.toSend, ?_, trivial⟩
  simp [List.filter_filter]

/-- Claim C6: in `performRequests`, a sub-request result with status
BackendUnavailable, or Timeout with an incomplete send, is rescheduled at
`dueTime = now + min(10, max(0.2, 2*(now - startTime)))`; when that due
time is at or past `endTime` the request is marked done and counted in
`nrDone` (given up, so never retried), otherwise it is left not-done for
resending and `nrDone` is unchanged; any other status marks the request
done with its due time untouched, so no other terminal status is ever
retried. -/
theorem performRequests_retry_backoff (status : ClusterCommOpStatus)
    (swc answerGood : Bool) (now startTime endTime : ℚ)
    (slot : RequestSlot) (nrDone nrGood : Nat) :
    ((status = CL_COMM_BACKEND_UNAVAILABLE ∨
        (status = CL_COMM_TIMEOUT ∧ swc = false)) →
      (handleResult status swc answerGood now startTime endTime slot
          nrDone nrGood).1.dueTime =
        now + min 10 (max (2/10) (2 * (now - startTime))) ∧
      (endTime ≤ (handleResult status swc answerGood now startTime endTime
          slot nrDone nrGood).1.dueTime →
        (handleResult status swc answerGood now startTime endTime slot
            nrDone nrGood).1.done = true ∧
        (handleResult status swc answerGood now startTime endTime slot
            nrDone nrGood).2.1 = nrDone + 1) ∧
      ((handleResult status swc answerGood now startTime endTime slot
          nrDone nrGood).1.dueTime < endTime →
        (handleResult status swc answerGood now startTime endTime slot
            nrDone nrGood).1.done = slot.done ∧
        (handleResult status swc answerGood now startTime endTime slot
            nrDone nrGood).2.1 = nrDone)) ∧
    ((¬ (status = CL_COMM_BACKEND_UNAVAILABLE ∨
        (status = CL_COMM_TIMEOUT ∧ swc = false))) →
      (handleResult status swc answerGood now startTime endTime slot
          nrDone nrGood).1.done = true ∧
      (handleResult status swc answerGood now startTime endTime slot
          nrDone nrGood).1.dueTime = slot.dueTime ∧
      (handleResult status swc answerGood now startTime endTime slot
          nrDone nrGood).2.1 = nrDone + 1) := by
  constructor
  · intro hrt
    have hnr : ¬ status = CL_COMM_RECEIVED := by
      rcases hrt with h | ⟨h, -⟩ <;> subst h <;> decide
    unfold handleResult
    rw [if_neg hnr, if_pos hrt]
    by_cases hdue : endTime ≤ min 10 (max (2/10) (2 * (now - startTime))) + now
    · rw [if_pos hdue]
      refine ⟨add_comm _ _, fun _ => ⟨rfl, rfl⟩, fun hlt => absurd hdue ?_⟩
      rw [not_le]
      exact hlt
    · rw [if_neg hdue]
      refine ⟨add_comm _ _, fun hle => absurd hle ?_, fun _ => ⟨rfl, rfl⟩⟩
      rw [not_le]
      rw [not_le] at hdue
      exact hdue
  · intro hrt
    unfold handleResult
    by_cases hnr : status = CL_COMM_RECEIVED
    · rw [if_pos hnr]
      exact ⟨rfl, rfl, rfl⟩
    · rw [if_neg hnr, if_neg hrt]
      exact ⟨rfl, rfl, rfl⟩

/-- Witness for C6: a BackendUnavailable result at `now = 1`,
`startTime = 0`, `endTime = 100` is rescheduled at `1 + 2 = 3`, which is
before `endTime`, so the request stays not-done. -/
theorem performRequests_retry_backoff_witness :
    (CL_COMM_BACKEND_UNAVAILABLE = CL_COMM_BACKEND_UNAVAILABLE ∨
      (CL_COMM_BACKEND_UNAVAILABLE = CL_COMM_TIMEOUT ∧ true = false)) ∧
    (handleResult CL_COMM_BACKEND_UNAVAILABLE true false 1 0 100
        { dueTime := 0, done := false } 0 0).1.dueTime =
      1 + min 10 (max (2/10) (2 * ((1 : ℚ) - 0))) :=
  ⟨Or.inl rfl,
   ((performRequests_retry_backoff CL_COMM_BACKEND_UNAVAILABLE true false
      1 0 100 { dueTime := 0, done := false } 0 0).1 (Or.inl rfl)).1⟩

/-- Claim C7: evaluating the transport options at the failing input
`initTimeout = -1` (the documented default), `timeout = 5`: the code sets
`connectTimeout` to `initTimeout` unconditionally, so it becomes `-1`
instead of the claimed fallback value `timeout = 5`; `requestTimeout` is
`timeout` as claimed. -/
theorem asyncRequest_connectTimeout_ignores_fallback :
    (asyncRequestEmbed env0 [] 0 (chars "tcp://h:8529") (chars "/x") none
        emptyHeaders 5 true (-1) 1 []).options.connectionTimeout = -1 ∧
    (asyncRequestEmbed env0 [] 0 (chars "tcp://h:8529") (chars "/x") none
        emptyHeaders 5 true (-1) 1 []).options.requestTimeout = 5 ∧
    ((-1 : ℚ) ≠ 5) :=
  ⟨rfl, rfl, by norm_num⟩

/-- Claim C8 counterexample: a record with client transaction id `xyz` and
operation id 7 is selected by `drop`'s condition for the filter tuple
(`abc`, 0, 7, empty) — the nonzero matching ticket suffices even though the
client transaction id differs — and `wait` with ticket 7 finds it too,
while the claim's conjunctive rule rejects it, so the claim that all
supplied filters must hold conjointly fails. -/
theorem match_ticket_disjunct_cex :
    dropMatches (chars "abc") 0 7 []
      { initResult with clientTransactionID := chars "xyz", operationID := 7 } = true ∧
    matchSpecRule (chars "abc") 0 7 []
      { initResult with clientTransactionID := chars "xyz", operationID := 7 } = false ∧
    waitFind (chars "abc") 0 7 []
      [(7, { initResult with clientTransactionID := chars "xyz", operationID := 7 })] =
      some (7, { initResult with clientTransactionID := chars "xyz", operationID := 7 }) := by
  exact ⟨by decide, by decide, by decide⟩

/-- Claim C8 amended: the three wildcard filters of `match`
(clientTransactionID / coordTransactionID / shardID) are conjoined and
agree with the spec's rule restricted to a wildcard ticket; the ticket is
handled separately: `wait` with a nonzero ticket locates the record by
ticket alone (any filter tuples give the same lookup), and for `drop` a
nonzero matching ticket is sufficient by itself, as is a match of the
three filters (a disjunction, not a conjunction). -/
theorem match_wildcards_and_ticket_handling :
    (∀ (c1 c2 : Str) (co1 co2 : Nat) (sh1 sh2 : Str) (t : Nat)
        (responses : List (Nat × ClusterCommResult)), t ≠ 0 →
      waitFind c1 co1 t sh1 responses = waitFind c2 co2 t sh2 responses) ∧
    (∀ (c : Str) (co : Nat) (sh : Str) (r : ClusterCommResult),
      r.operationID ≠ 0 → dropMatches c co r.operationID sh r = true) ∧
    (∀ (c : Str) (co : Nat) (t : Nat) (sh : Str) (r : ClusterCommResult),
      matchEmbed c co sh r = true → dropMatches c co t sh r = true) ∧
    (∀ (c : Str) (co : Nat) (sh : Str) (r : ClusterCommResult),
      matchEmbed c co sh r = matchSpecRule c co 0 sh r) := by
  refine ⟨?_, ?_, ?_, ?_⟩
  · intro c1 c2 co1 co2 sh1 sh2 t responses ht
    unfold waitFind
    rw [if_neg ht, if_neg ht]
  · intro c co sh r hne
    simp [dropMatches, hne]
    exact Or.inl fun h => hne h.symm
  · intro c co t sh r hm
    simp [dropMatches, hm]
  · intro c co sh r
    have hco : (0 == co) = (co == 0) := by
      cases co <;> rfl
    simp [matchEmbed, matchSpecRule, hco]

/-- Witness for C8 amended: with ticket 7 the lookup ignores the other
filters. -/
theorem match_wildcards_and_ticket_handling_witness :
    ((7 : Nat) ≠ 0) ∧
    waitFind (chars "a") 1 7 (chars "s") [] =
      waitFind (chars "b") 2 7 (chars "t") [] :=
  ⟨by decide,
   match_wildcards_and_ticket_handling.1 (chars "a") (chars "b") 1 2
     (chars "s") (chars "t") 7 [] (by decide)⟩
